import Mathlib

/-!
Verification development for the Research-Agents repository.

The repository is a Python research-report generator with two pipelines:
a modular one (`query_planner.py`, `web_search.py`, `rag_system.py`,
`stock_api.py`, `research_agent.py`) and a standalone one (`main.py`).
This file is a shallow embedding of the parts that the frozen claims are
about.  Pure Python functions become Lean functions; external capabilities
(the language model, the yfinance symbol fetch, the Chroma vector store,
the process hash salt and the wall clock) become explicit parameters;
Python exceptions become `Except String`.  Python `float` arithmetic in
the aggregation code is modelled with `Rat` (the claims under test are
about which values enter an aggregate, not about rounding).
-/

set_option maxHeartbeats 1000000
set_option maxRecDepth 100000

namespace ResearchAgents

/-! ## Python-value model used by the planner (`query_planner.py`)

`create_research_plan` parses the language-model output with `json.loads`
and then manipulates the result as an untyped Python value (dict / list /
str / int / None).  `JValue` models exactly those shapes.  `json.loads`
itself is an external library call; its outcome is passed in as
`Option JValue` (`none` = a parse exception was raised).
-/

inductive JValue where
  | jnull : JValue
  | jbool : Bool → JValue
  | jnum : Int → JValue
  | jstr : String → JValue
  | jarr : List JValue → JValue
  | jobj : List (String × JValue) → JValue
  deriving BEq

/-- Python dict lookup `d[k]` on an insertion-ordered dict, as `Option`. -/
def lookupKey (fs : List (String × JValue)) (k : String) : Option JValue :=
  match fs.find? (fun p => p.1 == k) with
  | some p => some p.2
  | none => none

/-- Python dict assignment `d[k] = v`: update in place when the key exists,
otherwise append (insertion order is preserved, as in CPython). -/
def setKey (fs : List (String × JValue)) (k : String) (v : JValue) :
    List (String × JValue) :=
  if fs.any (fun p => p.1 == k) then
    fs.map (fun p => if p.1 == k then (k, v) else p)
  else fs ++ [(k, v)]

/-- Python `len(v)`: defined for list, str and dict, `TypeError` otherwise
(this is the exception `_enhance_research_plan` hits on line 110 of
`query_planner.py` when the parsed plan's `tasks` value has no length). -/
def pyLen : JValue → Except String Nat
  | .jarr xs => .ok xs.length
  | .jstr s => .ok s.length
  | .jobj fs => .ok fs.length
  | _ => .error "TypeError: object has no len"

/-- Boolean substring test on `Char` lists (Python's `needle in haystack`). -/
def subList (needle : List Char) : List Char → Bool
  | [] => needle.isEmpty
  | c :: rest => needle.isPrefixOf (c :: rest) || subList needle rest

/-- Python's `needle in haystack` for strings. -/
def strContains (hay needle : String) : Bool :=
  subList needle.toList hay.toList

/-- Python `text.lower()` (ASCII case folding), written characterwise so
that it evaluates by kernel reduction. -/
def pyLower (s : String) : String :=
  String.mk (s.toList.map Char.toLower)

/-- Accumulating tokenizer behind `pySplit`. -/
def wordsAux : List Char → List Char → List String
  | [], cur => if cur.isEmpty then [] else [String.mk cur.reverse]
  | c :: rest, cur =>
      if c.isWhitespace then
        if cur.isEmpty then wordsAux rest []
        else String.mk cur.reverse :: wordsAux rest []
      else wordsAux rest (c :: cur)

/-- Python `text.split()`: split on whitespace runs, dropping empty
pieces. -/
def pySplit (s : String) : List String :=
  wordsAux s.toList []

/-! ## Rule-based planner fallback (`query_planner.py`, lines 55-102) -/

/-- The fixed sector keyword table of `_fallback_planning`, in Python dict
insertion order. -/
def sector_keywords : List (String × List String) :=
  [("technology", ["tech", "software", "AI", "digital", "IT"]),
   ("healthcare", ["health", "medical", "pharma", "biotech"]),
   ("finance", ["finance", "banking", "fintech", "investment"]),
   ("energy", ["energy", "renewable", "solar", "wind", "oil"])]

/-- One sector's test in the detection loop:
`any(keyword.lower() in query_lower for keyword in keywords)`.
Note: this is a SUBSTRING test against the lowercased query, not a
token-set intersection. -/
def sectorMatches (query : String) (keywords : List String) : Bool :=
  keywords.any (fun kw => strContains (pyLower query) (pyLower kw))

/-- The sector-detection loop of `_fallback_planning`: first sector of the
table (in insertion order) whose keyword list matches, else `None`. -/
def detect_sector (query : String) : Option String :=
  match sector_keywords.find? (fun p => sectorMatches query p.2) with
  | some p => some p.1
  | none => none

/-- The web_search task dict built by `_fallback_planning`. -/
def webSearchTaskDict (query : String) : JValue :=
  .jobj [("type", .jstr "web_search"), ("query", .jstr query),
         ("description", .jstr ("General web search for: " ++ query))]

/-- The rag_query task dict built by `_fallback_planning`. -/
def ragQueryTaskDict (query : String) : JValue :=
  .jobj [("type", .jstr "rag_query"), ("query", .jstr query),
         ("description", .jstr ("Knowledge base query for: " ++ query))]

/-- The stock_analysis task dict appended by `_fallback_planning` when a
sector was detected. -/
def stockAnalysisTaskDict (sector : String) : JValue :=
  .jobj [("type", .jstr "stock_analysis"), ("sector", .jstr sector),
         ("description", .jstr ("Stock analysis for " ++ sector ++ " sector"))]

/-- Embeds `QueryPlanner._fallback_planning`: build the basic plan dict, then, when
a sector was detected, append the stock_analysis task and the extra
expected source.  `main_topics` is `[query.split()[:3]]` as in the source. -/
def fallback_planning (query : String) : JValue :=
  let detected := detect_sector query
  let baseTasks := [webSearchTaskDict query, ragQueryTaskDict query]
  let baseSources := [JValue.jstr "web", JValue.jstr "knowledge_base"]
  let tasks := match detected with
    | some s => baseTasks ++ [stockAnalysisTaskDict s]
    | none => baseTasks
  let sources := match detected with
    | some _ => baseSources ++ [JValue.jstr "financial_data"]
    | none => baseSources
  .jobj
    [("main_topics", .jarr [.jarr (((pySplit query).take 3).map JValue.jstr)]),
     ("tasks", .jarr tasks),
     ("expected_sources", .jarr sources),
     ("sector_focus", match detected with | some s => .jstr s | none => .jnull)]

/-! ## Plan enhancement (`query_planner.py`, lines 104-117)

`_enhance_research_plan` mutates the plan dict coming either from the
rule-based fallback or directly from `json.loads` of the model output, so
it can raise when that value does not have the Plan shape.  The model
follows CPython semantics for each subscript/assignment it performs. -/

/-- The loop body `task["priority"] = len(tasks) - i; task["estimated_time"] = 30`;
raises `TypeError` when the iterated element is not a dict. -/
def setTaskFields (n : Int) (i : Nat) : JValue → Except String JValue
  | .jobj tfs =>
      .ok (.jobj (setKey (setKey tfs "priority" (.jnum (n - i))) "estimated_time"
        (.jnum 30)))
  | _ => .error "TypeError: item assignment"

/-- Index-passing traversal of the task list (Python `enumerate`). -/
def enhanceTaskList (n : Int) : Nat → List JValue → Except String (List JValue)
  | _, [] => .ok []
  | i, t :: ts =>
      match setTaskFields n i t with
      | .error e => .error e
      | .ok t2 =>
          match enhanceTaskList n (i + 1) ts with
          | .error e => .error e
          | .ok ts2 => .ok (t2 :: ts2)

/-- The priority loop over `plan["tasks"]`.  A list is traversed element by
element; iterating a string or a dict yields str elements (characters or
keys), whose item assignment raises unless the iterable is empty;
non-iterables raise `TypeError`. -/
def enhanceTasksValue (n : Int) : JValue → Except String JValue
  | .jarr ts => (enhanceTaskList n 0 ts).map JValue.jarr
  | .jstr s => if s.length = 0 then .ok (.jstr s)
      else .error "TypeError: item assignment"
  | .jobj fs => if fs.length = 0 then .ok (.jobj fs)
      else .error "TypeError: item assignment"
  | _ => .error "TypeError: not iterable"

/-- Embeds `QueryPlanner._enhance_research_plan`.  Metadata keys are assigned
first (`original_query`, `plan_created_at`), then `len(plan["tasks"])` is
taken for `estimated_duration` (raising `KeyError`/`TypeError` exactly
where CPython would), then the priority loop runs. -/
def enhance_research_plan (plan : JValue) (query : String) :
    Except String JValue :=
  match plan with
  | .jobj fs =>
      let fs1 := setKey fs "original_query" (.jstr query)
      let fs2 := setKey fs1 "plan_created_at" (.jstr "2024-09-07")
      match lookupKey fs2 "tasks" with
      | none => .error "KeyError: tasks"
      | some tv =>
          match pyLen tv with
          | .error e => .error e
          | .ok n =>
              let fs3 := setKey fs2 "estimated_duration" (.jnum (n * 30))
              match enhanceTasksValue (n : Int) tv with
              | .error e => .error e
              | .ok tv2 => .ok (.jobj (setKey fs3 "tasks" tv2))
  | _ => .error "TypeError: item assignment"

/-- Embeds `QueryPlanner.create_research_plan`.  The language-model call and
`json.loads` are external; `parsed` is the outcome of
`json.loads(plan_text)` (`none` = the parse raised, triggering the
rule-based fallback).  Whatever plan value results is then enhanced. -/
def create_research_plan (parsed : Option JValue) (query : String) :
    Except String JValue :=
  match parsed with
  | some plan => enhance_research_plan plan query
  | none => enhance_research_plan (fallback_planning query) query

/-! Observation helpers on plan values (used to state the claims). -/

/-- The task list of a plan value (empty when absent or ill-shaped). -/
def planTasks (plan : JValue) : List JValue :=
  match plan with
  | .jobj fs =>
      match lookupKey fs "tasks" with
      | some (.jarr ts) => ts
      | _ => []
  | _ => []

/-- Whether a task dict has the given `"type"` field. -/
def taskHasType (ty : String) : JValue → Bool
  | .jobj tfs =>
      match lookupKey tfs "type" with
      | some (.jstr s) => s == ty
      | _ => false
  | _ => false

/-- Number of tasks of a given kind in a plan value. -/
def countTasksOfType (plan : JValue) (ty : String) : Nat :=
  ((planTasks plan).filter (taskHasType ty)).length

/-- The `sector_focus` entry of a plan value. -/
def sectorFocusOf (plan : JValue) : Option JValue :=
  match plan with
  | .jobj fs => lookupKey fs "sector_focus"
  | _ => none

/-- The `"query"` parameter of a task dict. -/
def taskQuery : JValue → Option JValue
  | .jobj tfs => lookupKey tfs "query"
  | _ => none

/-! ## Web search provider chain (`web_search.py`)

A search result `{title, url, content, source, relevance_score}`. -/

structure WebResult where
  title : String
  url : String
  content : String
  source : String
  relevance : Rat
  deriving Repr, DecidableEq

/-- Embeds `WebSearchTool._tavily_search`: the stub always returns `[]`. -/
def tavily_search (_query : String) (_numResults : Nat) : List WebResult := []

/-- The three simulated DuckDuckGo results of `_duckduckgo_search`. -/
def duckduckgoMockResults (query : String) : List WebResult :=
  [{ title := "Research on " ++ query ++ " - Latest Insights",
     url := "https://example.com/research/" ++ query.replace " " "-",
     content := "Comprehensive analysis of " ++ query ++
       " covering market trends, key players, and future outlook.",
     source := "duckduckgo", relevance := 95 / 100 },
   { title := query ++ " Market Report 2024",
     url := "https://marketreports.com/" ++ query.replace " " "-" ++ "-2024",
     content := "In-depth market report analyzing " ++ query ++
       " with statistical data and expert opinions.",
     source := "duckduckgo", relevance := 88 / 100 },
   { title := "Industry Analysis: " ++ query,
     url := "https://industry-insights.com/" ++ query.replace " " "-",
     content := "Professional industry analysis covering " ++ query ++
       " trends, challenges, and opportunities.",
     source := "duckduckgo", relevance := 82 / 100 }]

/-- Embeds `WebSearchTool._duckduckgo_search`: `mock_results[:num_results]`. -/
def duckduckgo_search (query : String) (numResults : Nat) : List WebResult :=
  (duckduckgoMockResults query).take numResults

/-- The two synthetic results of `_fallback_search`. -/
def fallbackMockResults (query : String) : List WebResult :=
  [{ title := "Understanding " ++ query ++ ": A Comprehensive Guide",
     url := "https://research-hub.com/guides/" ++ query.replace " " "-",
     content := "This comprehensive guide explores " ++ query ++
       " from multiple perspectives, providing valuable insights for professionals and researchers.",
     source := "fallback", relevance := 75 / 100 },
   { title := query ++ " - Recent Developments and Trends",
     url := "https://trend-analysis.com/" ++ query.replace " " "-" ++ "-trends",
     content := "Analysis of recent developments in " ++ query ++
       " including emerging trends and market dynamics.",
     source := "fallback", relevance := 70 / 100 }]

/-- Embeds `WebSearchTool._fallback_search`: `fallback_results[:num_results]`. -/
def fallback_search (query : String) (numResults : Nat) : List WebResult :=
  (fallbackMockResults query).take numResults

/-- One `try: results = await tier(...); if results: return results`
block of `search_async`: `some` exactly when the tier neither raised nor
returned an empty list. -/
def tryTier (r : Except String (List WebResult)) : Option (List WebResult) :=
  match r with
  | .ok rs => if rs.isEmpty then none else some rs
  | .error _ => none

/-- Embeds `WebSearchTool.search_async`, with the awaited outcome of each provider
tier passed in (each call is an awaited coroutine that may raise): Tavily
is tried first, DuckDuckGo on failure or empty result, and the final
fallback's outcome is returned as is — including its exception, which the
method does not catch. -/
def search_async (tavily ddg fb : Except String (List WebResult)) :
    Except String (List WebResult) :=
  match tryTier tavily with
  | some rs => .ok rs
  | none =>
      match tryTier ddg with
      | some rs => .ok rs
      | none => fb

/-- Embeds `search_async` as actually invoked in this repository: each tier is the
in-repo stub, none of which can raise. -/
def searchAsyncRun (query : String) (numResults : Nat) :
    Except String (List WebResult) :=
  search_async (.ok (tavily_search query numResults))
    (.ok (duckduckgo_search query numResults))
    (.ok (fallback_search query numResults))

/-! ## Knowledge retrieval (`rag_system.py`)

The Chroma vector store is external: `vector` is `some rs` when
`similarity_search` succeeded with results `rs`, `none` when the store is
unavailable or raised (both fall back to keyword matching). -/

structure KnowledgeEntry where
  content : String
  sourceTag : String
  relevance : Rat
  deriving Repr, DecidableEq

/-- The four template entries of `RAGSystem._fallback_query`, truncated to
`num_results`. -/
def rag_fallback_query (query : String) (numResults : Nat) : List KnowledgeEntry :=
  ([{ content := "Market analysis indicates that " ++ query ++
        " has shown significant growth potential in recent quarters. Key drivers include technological advancement and consumer adoption.",
      sourceTag := "market_analysis", relevance := 8 / 10 },
    { content := "Industry experts suggest that " ++ query ++
        " will continue to evolve with emerging technologies and changing consumer preferences.",
      sourceTag := "expert_opinions", relevance := 7 / 10 },
    { content := "Historical data shows " ++ query ++
        " has experienced cyclical patterns influenced by economic conditions and regulatory changes.",
      sourceTag := "historical_analysis", relevance := 6 / 10 },
    { content := "Investment outlook for " ++ query ++
        " remains positive based on fundamental analysis and growth projections.",
      sourceTag := "investment_research", relevance := 75 / 100 }] :
    List KnowledgeEntry).take numResults

/-- Embeds `RAGSystem.query`: vector-store results when available, else the
keyword fallback with the default `num_results = 5`. -/
def ragQuery (vector : Option (List KnowledgeEntry)) (query : String)
    (numResults : Nat) : List KnowledgeEntry :=
  match vector with
  | some rs => rs
  | none => rag_fallback_query query numResults

/-- Embeds `RAGSystem._generate_summary`. -/
def generate_summary (results : List KnowledgeEntry) : String :=
  if results.isEmpty then "No relevant information found in knowledge base."
  else
    let totalContent := String.intercalate " " (results.map (·.content))
    let wordCount := (pySplit totalContent).length
    "Found " ++ toString results.length ++ " relevant documents with " ++
      toString wordCount ++ " total words of context."

/-- The fixed business-vocabulary list of `_extract_key_concepts`. -/
def businessTerms : List String :=
  ["market", "growth", "analysis", "trends", "industry", "technology",
   "investment"]

/-- Embeds `RAGSystem._extract_key_concepts`: query tokens longer than 3
characters, then any business term found in a result's content that is not
already present, first-seen order, truncated to 10. -/
def extract_key_concepts (query : String) (results : List KnowledgeEntry) :
    List String :=
  let concepts := (pySplit (pyLower query)).filter (fun w => w.length > 3)
  let final := results.foldl
    (fun cs r =>
      businessTerms.foldl
        (fun cs t =>
          if strContains (pyLower r.content) t && !cs.contains t then cs ++ [t]
          else cs)
        cs)
    concepts
  final.take 10

/-- The enhanced-results dict of `RAGSystem.enhanced_query`. -/
structure RagEnhanced where
  query : String
  results : List KnowledgeEntry
  totalDocuments : Nat
  summary : String
  keyConcepts : List String
  deriving Repr, DecidableEq

/-- Embeds `RAGSystem.enhanced_query`. -/
def enhanced_query (vector : Option (List KnowledgeEntry)) (query : String) :
    RagEnhanced :=
  let basicResults := ragQuery vector query 5
  { query := query, results := basicResults,
    totalDocuments := basicResults.length,
    summary := generate_summary basicResults,
    keyConcepts := extract_key_concepts query basicResults }

/-! ## Stock market data (`stock_api.py`)

`get_stock_data_async` wraps a yfinance call; it is external state and is
modelled as a fetch function `String → Except String StockData`
(`.error` = the `{"error": ...}` dict the method returns on any failure).
The sqlite stores and the `analysis_timestamp` field (wall clock) are
out-of-scope persistence and are not part of the returned analysis model.
Prices and ratios are modelled with `Rat`. -/

structure StockData where
  ticker : String
  name : String
  price : Rat
  marketCap : Rat
  peRatio : Rat
  high52w : Rat
  low52w : Rat
  volume : Int
  sector : String
  industry : String
  deriving Repr, DecidableEq

/-- The `sector_stocks` table of `StockDataTool`. -/
def sector_stocks : List (String × List String) :=
  [("technology", ["AAPL", "MSFT", "GOOGL", "META", "NVDA"]),
   ("healthcare", ["JNJ", "PFE", "UNH", "ABBV", "TMO"]),
   ("finance", ["JPM", "BAC", "WFC", "GS", "MS"]),
   ("energy", ["XOM", "CVX", "COP", "SLB", "EOG"])]

/-- Embeds `sector in self.sector_stocks` / `self.sector_stocks[sector]`. -/
def lookupSectorStocks (sector : String) : Option (List String) :=
  match sector_stocks.find? (fun p => p.1 == sector) with
  | some p => some p.2
  | none => none

/-- Python `max(data, key=...)` over a nonempty list: scans left to right
and replaces the current best only on a strictly greater key, so the FIRST
maximal element wins. -/
def pyMaxBy (key : StockData → Rat) (h : StockData) (t : List StockData) :
    StockData :=
  t.foldl (fun acc s => if key s > key acc then s else acc) h

/-- Python `min(data, key=...)` over a nonempty list (first minimal wins). -/
def pyMinBy (key : StockData → Rat) (h : StockData) (t : List StockData) :
    StockData :=
  t.foldl (fun acc s => if key s < key acc then s else acc) h

/-- The best/worst performer summary dicts of `analyze_sector_stocks`. -/
structure Performer where
  ticker : String
  name : String
  price : Rat
  deriving Repr, DecidableEq

/-- The sector analysis dict of `analyze_sector_stocks`. -/
structure SectorAnalysis where
  sector : String
  totalStocksAnalyzed : Nat
  totalMarketCap : Rat
  avgPeRatio : Rat
  bestPerformer : Performer
  worstPerformer : Performer
  stocks : List StockData
  deriving Repr, DecidableEq

/-- The per-symbol collection loop of `analyze_sector_stocks`: append the
fetched data unless the fetch produced an error dict. -/
def collectSectorData (fetch : String → Except String StockData)
    (tickers : List String) : List StockData :=
  tickers.foldl
    (fun acc t => match fetch t with | .ok d => acc ++ [d] | .error _ => acc)
    []

/-- Embeds `StockDataTool.analyze_sector_stocks`.  Faithfully:
`total_market_cap = sum(s.market_cap for s in data if s.market_cap)`,
`avg_pe_ratio = sum(s.pe_ratio for s in data if s.pe_ratio) / len(data)`
(note: the denominator is ALL successfully fetched symbols, and the
numerator keeps every nonzero — also negative — ratio), best and worst
performer by latest price. -/
def analyze_sector_stocks (fetch : String → Except String StockData)
    (sector : String) : Except String SectorAnalysis :=
  match lookupSectorStocks sector with
  | none => .error ("Sector " ++ sector ++ " not supported")
  | some tickers =>
      match collectSectorData fetch tickers with
      | [] => .error ("No data available for " ++ sector ++ " sector")
      | d :: ds =>
          let data := d :: ds
          let totalMarketCap :=
            ((data.filter (fun s => s.marketCap != 0)).map (·.marketCap)).sum
          let avgPeRatio :=
            ((data.filter (fun s => s.peRatio != 0)).map (·.peRatio)).sum /
              (data.length : Rat)
          let best := pyMaxBy (·.price) d ds
          let worst := pyMinBy (·.price) d ds
          .ok { sector := sector, totalStocksAnalyzed := data.length,
                totalMarketCap := totalMarketCap, avgPeRatio := avgPeRatio,
                bestPerformer :=
                  { ticker := best.ticker, name := best.name, price := best.price },
                worstPerformer :=
                  { ticker := worst.ticker, name := worst.name, price := worst.price },
                stocks := data }

/-- Embeds `get_detailed_analysis` output: the stock data plus `analysis_score`. -/
structure DetailedAnalysis where
  data : StockData
  analysisScore : Int
  deriving Repr, DecidableEq

/-- Embeds `StockDataTool.get_detailed_analysis`.  Score from base 5 via the P/E,
market-cap and 52-week-position heuristics, clamped with
`min(10, max(1, score))`.  The position step computes
`(price - low_52w) / (high_52w - low_52w)`, which in CPython raises
`ZeroDivisionError` whenever the 52-week high equals the 52-week low. -/
def get_detailed_analysis (fetch : String → Except String StockData)
    (ticker : String) : Except String DetailedAnalysis :=
  match fetch ticker with
  | .error e => .error e
  | .ok d =>
      let score0 : Int := 5
      let score1 : Int :=
        if d.peRatio > 0 then
          if d.peRatio < 15 then score0 + 2
          else if d.peRatio < 25 then score0 + 1
          else score0 - 1
        else score0
      let score2 : Int :=
        if d.marketCap > 100000000000 then score1 + 2
        else if d.marketCap > 10000000000 then score1 + 1
        else score1
      let priceRange := d.high52w - d.low52w
      if priceRange = 0 then
        .error "ZeroDivisionError: float division by zero"
      else
        let currentPosition := (d.price - d.low52w) / priceRange
        let score3 : Int :=
          if currentPosition > 4 / 5 then score2 + 1
          else if currentPosition < 1 / 5 then score2 - 1
          else score2
        .ok { data := d, analysisScore := min 10 (max 1 score3) }

/-! ## Research execution loop (`research_agent.py`, lines 72-96)

`conduct_research` iterates the plan's task dicts and dispatches on
`task['type']`.  `ExecTask` models a well-formed task dict: `web` carries
`task['query']`, `stock` carries `task['sector']`, `rag` carries
`task['query']`; `other` is a task whose type string matches none of the
three branches (the loop then appends nothing for it). -/

inductive ExecTask where
  | web : String → ExecTask
  | stock : String → ExecTask
  | rag : String → ExecTask
  | other : ExecTask
  deriving Repr, DecidableEq

/-- One entry of the `research_results` list: a web task extends the list
with its result dicts; a stock task appends one
`{'type': 'stock_data', 'data': ...}` wrapper (whose data may be the error
dict); a rag task appends one `{'type': 'knowledge_base', 'data': ...}`
wrapper. -/
inductive RItem where
  | webItem : WebResult → RItem
  | stockItem : Except String SectorAnalysis → RItem
  | ragItem : RagEnhanced → RItem
  deriving Repr

/-- One iteration of the task loop, threading
`(research_results, sources)`.  An exception escaping a provider call
would abort the whole loop, hence the `Except` result; within this
repository only the web tier could in principle surface one. -/
def execStep (fetch : String → Except String StockData)
    (vector : Option (List KnowledgeEntry))
    (acc : List RItem × List String) (t : ExecTask) :
    Except String (List RItem × List String) :=
  match t with
  | .web q =>
      match searchAsyncRun q 5 with
      | .error e => .error e
      | .ok rs =>
          .ok (acc.1 ++ rs.map RItem.webItem, acc.2 ++ rs.map (·.url))
  | .stock s =>
      .ok (acc.1 ++ [RItem.stockItem (analyze_sector_stocks fetch s)], acc.2)
  | .rag q =>
      .ok (acc.1 ++ [RItem.ragItem (enhanced_query vector q)], acc.2)
  | .other => .ok acc

/-- The task-execution loop of `ResearchAgent.conduct_research` (steps 2 of
the method): returns the accumulated `research_results` and `sources`. -/
def conduct_research_tasks (fetch : String → Except String StockData)
    (vector : Option (List KnowledgeEntry)) (tasks : List ExecTask) :
    Except String (List RItem × List String) :=
  tasks.foldlM (execStep fetch vector) ([], [])

/-- Derived per-task contribution to `research_results` (used to state the
executor claims). -/
def taskItems (fetch : String → Except String StockData)
    (vector : Option (List KnowledgeEntry)) : ExecTask → List RItem
  | .web q => (duckduckgo_search q 5).map RItem.webItem
  | .stock s => [RItem.stockItem (analyze_sector_stocks fetch s)]
  | .rag q => [RItem.ragItem (enhanced_query vector q)]
  | .other => []

/-- Derived per-task contribution to `sources`. -/
def taskSources : ExecTask → List String
  | .web q => (duckduckgo_search q 5).map (·.url)
  | _ => []

/-! ## Report synthesis (`main.py`, `LLMInterface.generate_research_content`)

The method is a pure string template over its inputs plus two impure
reads: `hash(query)` (the per-process salted string hash, passed in as
`queryHash`) and `datetime.now()` (passed in as the formatted clock string
`now`).  The numeric formatting of the simulated stock fields
(`{...:+.2f}`, `{...:,}`) is localized float/int formatting; the fields
are carried as their already-formatted texts, which the claims never
inspect. -/

structure MainSearchResult where
  title : String
  url : String
  snippet : String
  source : String
  deriving Repr, DecidableEq

structure MainStockEntry where
  priceText : String
  changeText : String
  volumeText : String
  marketCapText : String
  deriving Repr, DecidableEq

/-- Embeds `'positive' if hash(query) % 2 == 0 else 'mixed'`. -/
def market_sentiment (queryHash : Int) : String :=
  if queryHash % 2 == 0 then "positive" else "mixed"

/-- Embeds `abs(hash(query)) % 15 + 5`. -/
def growth_rate (queryHash : Int) : Nat :=
  queryHash.natAbs % 15 + 5

/-- The opening template of the report, up to and including the
`## Stock Analysis` heading. -/
def reportIntro (query : String) (queryHash : Int) : String :=
  "\n# Research Report: " ++ query ++
  "\n\n## Executive Summary\nThis comprehensive analysis examines " ++ query ++
  " based on current market data, industry trends, and expert insights.\n\n## Market Overview\nBased on our analysis of recent data and trends:\n\n### Key Findings\n- Market sentiment shows " ++
  market_sentiment queryHash ++
  " outlook\n- Industry growth rate estimated at " ++
  toString (growth_rate queryHash) ++
  "% annually\n- Key market drivers include technological advancement and regulatory changes\n\n## Stock Analysis\n"

/-- The per-symbol block of the financial subsection. -/
def stockBlock (symbol : String) (d : MainStockEntry) : String :=
  "\n**" ++ symbol ++ "**\n- Current Price: $" ++ d.priceText ++
  "\n- Change: " ++ d.changeText ++ "%\n- Volume: " ++ d.volumeText ++
  "\n- Market Cap: " ++ d.marketCapText ++ "\n"

/-- Embeds `if stock_data:` guard plus the `### Financial Performance` loop.
An empty stock dict contributes NOTHING (the subsection is omitted
entirely, not rendered empty). -/
def stock_section (stockData : List (String × MainStockEntry)) : String :=
  if stockData.isEmpty then ""
  else
    stockData.foldl (fun acc p => acc ++ stockBlock p.1 p.2)
      "\n### Financial Performance\n"

/-- The `if context and 'trends' in context` loop: `contextTrends` is
`some ts` when the RAG context dict is nonempty and holds a `trends`
key with list `ts`. -/
def trends_section (contextTrends : Option (List String)) : String :=
  match contextTrends with
  | some ts =>
      ts.foldl
        (fun acc t => acc ++ ("- " ++ t ++ ": Significant impact on market dynamics\n"))
        ""
  | none => ""

/-- One numbered line of the sources list:
`f"{i}. [{title}]({url}) - {source}\n"`. -/
def source_line (i : Nat) (r : MainSearchResult) : String :=
  toString i ++ ". [" ++ r.title ++ "](" ++ r.url ++ ") - " ++ r.source ++ "\n"

/-- The `for i, result in enumerate(search_results, 1)` loop. -/
def sources_section (results : List MainSearchResult) : String :=
  (List.enumFrom 1 results).foldl (fun acc p => acc ++ source_line p.1 p.2) ""

/-- Embeds `LLMInterface.generate_research_content`: the full markdown report. -/
def generate_research_content (query : String)
    (searchResults : List MainSearchResult)
    (stockData : List (String × MainStockEntry))
    (contextTrends : Option (List String)) (queryHash : Int) (now : String) :
    String :=
  reportIntro query queryHash ++
  stock_section stockData ++
  "\n## Industry Trends\nBased on our research, key trends include:\n" ++
  trends_section contextTrends ++
  "\n## Sources and References\n" ++
  sources_section searchResults ++
  "\n## Conclusion\n" ++ query ++
  " represents a dynamic sector with significant opportunities and challenges. \nContinued monitoring of market trends and regulatory developments is recommended.\n\n*Report generated on " ++
  now ++ "*\n"

/-- Everything of the report that precedes the interpolated timestamp:
identical to `generate_research_content` with the trailing
`now ++ "*\n"` removed. -/
def generate_content_body (query : String)
    (searchResults : List MainSearchResult)
    (stockData : List (String × MainStockEntry))
    (contextTrends : Option (List String)) (queryHash : Int) : String :=
  reportIntro query queryHash ++
  stock_section stockData ++
  "\n## Industry Trends\nBased on our research, key trends include:\n" ++
  trends_section contextTrends ++
  "\n## Sources and References\n" ++
  sources_section searchResults ++
  "\n## Conclusion\n" ++ query ++
  " represents a dynamic sector with significant opportunities and challenges. \nContinued monitoring of market trends and regulatory developments is recommended.\n\n*Report generated on "

/-! ## Spec-side definitions

These definitions follow the WORDS of the specification (not the source);
they exist only to be compared with the source-derived definitions
above. -/

/-- Claim-side sector match: the query TOKENS have a non-empty
intersection with the sector's keyword set, compared case-insensitively
(spec section 4.1, step 2). -/
def specTokenIntersect (query : String) (keywords : List String) : Bool :=
  (pySplit (pyLower query)).any
    (fun tok => keywords.any (fun kw => pyLower kw == tok))

/-- Claim-side average P/E: the arithmetic mean over exactly the symbols
with a POSITIVE ratio — non-positive ratios excluded from numerator and
denominator alike (spec section 4.2, `sector_financials`). -/
def specAvgPe (stocks : List StockData) : Rat :=
  let pos := (stocks.filter (fun s => 0 < s.peRatio)).map (·.peRatio)
  pos.sum / (pos.length : Rat)

/-! ## The fully enhanced rule-based plans

`create_research_plan none q` (the rule-based path) reduces to one of the
two explicit plan values below, depending on sector detection; the lemmas
after the definitions establish this. -/

/-- The enhanced web_search task (priority = task count minus 0). -/
def webTaskEnhanced (q : String) (n : Int) : JValue :=
  .jobj [("type", .jstr "web_search"), ("query", .jstr q),
         ("description", .jstr ("General web search for: " ++ q)),
         ("priority", .jnum n), ("estimated_time", .jnum 30)]

/-- The enhanced rag_query task (priority = task count minus 1). -/
def ragTaskEnhanced (q : String) (n : Int) : JValue :=
  .jobj [("type", .jstr "rag_query"), ("query", .jstr q),
         ("description", .jstr ("Knowledge base query for: " ++ q)),
         ("priority", .jnum n), ("estimated_time", .jnum 30)]

/-- The enhanced stock_analysis task (always last, priority 1). -/
def stockTaskEnhanced (s : String) : JValue :=
  .jobj [("type", .jstr "stock_analysis"), ("sector", .jstr s),
         ("description", .jstr ("Stock analysis for " ++ s ++ " sector")),
         ("priority", .jnum 1), ("estimated_time", .jnum 30)]

/-- The enhanced rule-based plan when no sector was detected. -/
def fallbackPlanEnhancedNone (q : String) : JValue :=
  .jobj
    [("main_topics", .jarr [.jarr (((pySplit q).take 3).map JValue.jstr)]),
     ("tasks", .jarr [webTaskEnhanced q 2, ragTaskEnhanced q 1]),
     ("expected_sources", .jarr [.jstr "web", .jstr "knowledge_base"]),
     ("sector_focus", .jnull),
     ("original_query", .jstr q),
     ("plan_created_at", .jstr "2024-09-07"),
     ("estimated_duration", .jnum 60)]

/-- The enhanced rule-based plan when sector `s` was detected. -/
def fallbackPlanEnhancedSome (q s : String) : JValue :=
  .jobj
    [("main_topics", .jarr [.jarr (((pySplit q).take 3).map JValue.jstr)]),
     ("tasks", .jarr [webTaskEnhanced q 3, ragTaskEnhanced q 2, stockTaskEnhanced s]),
     ("expected_sources",
       .jarr [.jstr "web", .jstr "knowledge_base", .jstr "financial_data"]),
     ("sector_focus", .jstr s),
     ("original_query", .jstr q),
     ("plan_created_at", .jstr "2024-09-07"),
     ("estimated_duration", .jnum 90)]

lemma fallback_planning_eq_none (q : String) (h : detect_sector q = none) :
    fallback_planning q =
      .jobj
        [("main_topics", .jarr [.jarr (((pySplit q).take 3).map JValue.jstr)]),
         ("tasks", .jarr [webSearchTaskDict q, ragQueryTaskDict q]),
         ("expected_sources", .jarr [.jstr "web", .jstr "knowledge_base"]),
         ("sector_focus", .jnull)] := by
  simp [fallback_planning, h]

lemma fallback_planning_eq_some (q s : String) (h : detect_sector q = some s) :
    fallback_planning q =
      .jobj
        [("main_topics", .jarr [.jarr (((pySplit q).take 3).map JValue.jstr)]),
         ("tasks", .jarr [webSearchTaskDict q, ragQueryTaskDict q,
            stockAnalysisTaskDict s]),
         ("expected_sources",
           .jarr [.jstr "web", .jstr "knowledge_base", .jstr "financial_data"]),
         ("sector_focus", .jstr s)] := by
  simp [fallback_planning, h]

lemma create_research_plan_fallback_none (q : String)
    (h : detect_sector q = none) :
    create_research_plan none q = .ok (fallbackPlanEnhancedNone q) := by
  have h2 := fallback_planning_eq_none q h
  calc create_research_plan none q
      = enhance_research_plan (fallback_planning q) q := rfl
    _ = .ok (fallbackPlanEnhancedNone q) := by rw [h2]; rfl

lemma create_research_plan_fallback_some (q s : String)
    (h : detect_sector q = some s) :
    create_research_plan none q = .ok (fallbackPlanEnhancedSome q s) := by
  have h2 := fallback_planning_eq_some q s h
  calc create_research_plan none q
      = enhance_research_plan (fallback_planning q) q := rfl
    _ = .ok (fallbackPlanEnhancedSome q s) := by rw [h2]; rfl

/-! ## Supporting lemmas -/

lemma search_async_run_eq (q : String) :
    searchAsyncRun q 5 = .ok (duckduckgo_search q 5) := rfl

lemma exceptBindOk {α β : Type} (a : α) (f : α → Except String β) :
    (do let x ← Except.ok a; f x) = f a := rfl

lemma conduct_research_tasks_foldAux
    (fetch : String → Except String StockData)
    (vector : Option (List KnowledgeEntry)) :
    ∀ (tasks : List ExecTask) (acc : List RItem × List String),
      List.foldlM (execStep fetch vector) acc tasks =
        .ok (acc.1 ++ tasks.flatMap (taskItems fetch vector),
             acc.2 ++ tasks.flatMap taskSources) := by
  intro tasks
  induction tasks with
  | nil =>
      intro acc
      simp only [List.foldlM_nil, List.flatMap_nil, List.append_nil]
      rfl
  | cons t ts ih =>
      intro acc
      cases t with
      | web q =>
          simp only [List.foldlM_cons, execStep, search_async_run_eq,
            exceptBindOk]
          rw [ih]
          simp [taskItems, taskSources, List.append_assoc]
      | stock s =>
          simp only [List.foldlM_cons, execStep, exceptBindOk]
          rw [ih]
          simp [taskItems, taskSources, List.append_assoc]
      | rag q =>
          simp only [List.foldlM_cons, execStep, exceptBindOk]
          rw [ih]
          simp [taskItems, taskSources, List.append_assoc]
      | other =>
          simp only [List.foldlM_cons, execStep, exceptBindOk]
          rw [ih]
          simp [taskItems, taskSources]

/-- The executor never aborts in this repository and produces exactly the
per-task contributions, concatenated in plan order. -/
lemma conduct_research_tasks_eq (fetch : String → Except String StockData)
    (vector : Option (List KnowledgeEntry)) (tasks : List ExecTask) :
    conduct_research_tasks fetch vector tasks =
      .ok (tasks.flatMap (taskItems fetch vector), tasks.flatMap taskSources) := by
  have h := conduct_research_tasks_foldAux fetch vector tasks ([], [])
  simpa [conduct_research_tasks] using h

lemma collectSectorDataAux (fetch : String → Except String StockData) :
    ∀ (tickers : List String) (acc : List StockData),
      tickers.foldl
        (fun acc t => match fetch t with | .ok d => acc ++ [d] | .error _ => acc)
        acc =
      acc ++ tickers.filterMap (fun t => (fetch t).toOption) := by
  intro tickers
  induction tickers with
  | nil => intro acc; simp
  | cons t ts ih =>
      intro acc
      cases h : fetch t with
      | ok d => simp [List.foldl_cons, h, ih, List.filterMap_cons, Except.toOption]
      | error e => simp [List.foldl_cons, h, ih, List.filterMap_cons, Except.toOption]

/-- The collection loop keeps exactly the successfully fetched symbols, in
ticker order. -/
lemma collectSectorData_eq (fetch : String → Except String StockData)
    (tickers : List String) :
    collectSectorData fetch tickers =
      tickers.filterMap (fun t => (fetch t).toOption) := by
  have h := collectSectorDataAux fetch tickers []
  simpa [collectSectorData] using h

lemma pyMaxBy_mem (key : StockData → Rat) (h : StockData)
    (t : List StockData) : pyMaxBy key h t ∈ h :: t := by
  induction t generalizing h with
  | nil => simp [pyMaxBy]
  | cons x xs ih =>
      simp only [pyMaxBy, List.foldl_cons]
      by_cases hx : key x > key h
      · simp only [if_pos hx]
        have := ih x
        simp only [pyMaxBy] at this
        rcases List.mem_cons.mp this with h1 | h1
        · exact List.mem_cons.mpr (Or.inr (List.mem_cons.mpr (Or.inl h1)))
        · exact List.mem_cons.mpr (Or.inr (List.mem_cons.mpr (Or.inr h1)))
      · simp only [if_neg hx]
        have := ih h
        simp only [pyMaxBy] at this
        rcases List.mem_cons.mp this with h1 | h1
        · exact List.mem_cons.mpr (Or.inl h1)
        · exact List.mem_cons.mpr (Or.inr (List.mem_cons.mpr (Or.inr h1)))

lemma le_pyMaxBy (key : StockData → Rat) (h : StockData)
    (t : List StockData) : ∀ s ∈ h :: t, key s ≤ key (pyMaxBy key h t) := by
  induction t generalizing h with
  | nil => intro s hs; simp [pyMaxBy]; simp at hs; simp [hs]
  | cons x xs ih =>
      intro s hs
      simp only [pyMaxBy, List.foldl_cons]
      rcases List.mem_cons.mp hs with rfl | hs1
      · by_cases hx : key x > key s
        · simp only [if_pos hx]
          have := ih x x (List.mem_cons_self x xs)
          simp only [pyMaxBy] at this
          exact le_trans (le_of_lt hx) this
        · simp only [if_neg hx]
          exact ih s s (List.mem_cons_self s xs)
      · rcases List.mem_cons.mp hs1 with rfl | hs2
        · by_cases hx : key s > key h
          · simp only [if_pos hx]
            have := ih s s (List.mem_cons_self s xs)
            simp only [pyMaxBy] at this
            exact this
          · simp only [if_neg hx]
            have hle : key s ≤ key h := le_of_not_lt hx
            have := ih h h (List.mem_cons_self h xs)
            simp only [pyMaxBy] at this
            exact le_trans hle this
        · by_cases hx : key x > key h
          · simp only [if_pos hx]
            exact ih x s (List.mem_cons.mpr (Or.inr hs2))
          · simp only [if_neg hx]
            exact ih h s (List.mem_cons.mpr (Or.inr hs2))

lemma pyMinBy_mem (key : StockData → Rat) (h : StockData)
    (t : List StockData) : pyMinBy key h t ∈ h :: t := by
  induction t generalizing h with
  | nil => simp [pyMinBy]
  | cons x xs ih =>
      simp only [pyMinBy, List.foldl_cons]
      by_cases hx : key x < key h
      · simp only [if_pos hx]
        have := ih x
        simp only [pyMinBy] at this
        rcases List.mem_cons.mp this with h1 | h1
        · exact List.mem_cons.mpr (Or.inr (List.mem_cons.mpr (Or.inl h1)))
        · exact List.mem_cons.mpr (Or.inr (List.mem_cons.mpr (Or.inr h1)))
      · simp only [if_neg hx]
        have := ih h
        simp only [pyMinBy] at this
        rcases List.mem_cons.mp this with h1 | h1
        · exact List.mem_cons.mpr (Or.inl h1)
        · exact List.mem_cons.mpr (Or.inr (List.mem_cons.mpr (Or.inr h1)))

lemma pyMinBy_le (key : StockData → Rat) (h : StockData)
    (t : List StockData) : ∀ s ∈ h :: t, key (pyMinBy key h t) ≤ key s := by
  induction t generalizing h with
  | nil => intro s hs; simp [pyMinBy]; simp at hs; simp [hs]
  | cons x xs ih =>
      intro s hs
      simp only [pyMinBy, List.foldl_cons]
      rcases List.mem_cons.mp hs with rfl | hs1
      · by_cases hx : key x < key s
        · simp only [if_pos hx]
          have := ih x x (List.mem_cons_self x xs)
          simp only [pyMinBy] at this
          exact le_trans this (le_of_lt hx)
        · simp only [if_neg hx]
          exact ih s s (List.mem_cons_self s xs)
      · rcases List.mem_cons.mp hs1 with rfl | hs2
        · by_cases hx : key s < key h
          · simp only [if_pos hx]
            exact ih s s (List.mem_cons_self s xs)
          · simp only [if_neg hx]
            have hle : key h ≤ key s := le_of_not_lt hx
            have := ih h h (List.mem_cons_self h xs)
            simp only [pyMinBy] at this
            exact le_trans this hle
        · by_cases hx : key x < key h
          · simp only [if_pos hx]
            exact ih x s (List.mem_cons.mpr (Or.inr hs2))
          · simp only [if_neg hx]
            exact ih h s (List.mem_cons.mpr (Or.inr hs2))

/-- Plain concatenation of a list of strings. -/
def concatAll (l : List String) : String :=
  l.foldr (fun a b => a ++ b) ""

lemma concatAll_nil : concatAll [] = "" := rfl

lemma concatAll_cons (a : String) (l : List String) :
    concatAll (a :: l) = a ++ concatAll l := rfl

lemma foldl_append_concatAll {α : Type} (g : α → String) :
    ∀ (l : List α) (acc : String),
      l.foldl (fun a x => a ++ g x) acc = acc ++ concatAll (l.map g) := by
  intro l
  induction l with
  | nil => intro acc; simp [concatAll_nil, String.append_empty]
  | cons x xs ih =>
      intro acc
      simp only [List.foldl_cons, List.map_cons, concatAll_cons]
      rw [ih, String.append_assoc]

/-- The numbered sources loop yields exactly one line per search result,
in result order, with no deduplication. -/
lemma sources_section_eq (results : List MainSearchResult) :
    sources_section results =
      concatAll ((List.enumFrom 1 results).map (fun p => source_line p.1 p.2)) := by
  have h := foldl_append_concatAll
    (fun p : Nat × MainSearchResult => source_line p.1 p.2)
    (List.enumFrom 1 results) ""
  simpa [sources_section, String.empty_append] using h

/-- Splitting lemma for `List.find?`: a found element is the FIRST
satisfying element. -/
lemma find?_split {α : Type} (p : α → Bool) :
    ∀ (l : List α) (a : α), l.find? p = some a →
      ∃ l1 l2, l = l1 ++ a :: l2 ∧ p a = true ∧ ∀ x ∈ l1, p x = false := by
  intro l
  induction l with
  | nil => intro a h; simp [List.find?] at h
  | cons x xs ih =>
      intro a h
      by_cases hx : p x = true
      · rw [List.find?_cons_of_pos _ hx] at h
        cases h
        exact ⟨[], xs, by simp, hx, by simp⟩
      · have hx' : p x = false := by simpa using hx
        rw [List.find?_cons_of_neg _ (by simp [hx'])] at h
        obtain ⟨l1, l2, heq, hpa, hall⟩ := ih a h
        refine ⟨x :: l1, l2, by simp [heq], hpa, ?_⟩
        intro y hy
        rcases List.mem_cons.mp hy with rfl | hy2
        · exact hx'
        · exact hall y hy2

/-! ## Claim C1 -/

/-- A financial-data capability that fails for every symbol. -/
def fetchDown : String → Except String StockData :=
  fun t => .error ("Error fetching data for " ++ t)

/-- C1 counterexample: the claim says a Plan's execution yields EXACTLY ONE
TaskResult entry per task.  A plan consisting of one web_search task
produces THREE entries in `research_results` (the loop `extend`s the list
with the individual web result dicts), not one. -/
theorem C1_counterexample_web_task_three_entries :
    (conduct_research_tasks fetchDown none [ExecTask.web "ai"]).map
        (fun out => out.1.length) = .ok 3 ∧
    ([ExecTask.web "ai"] : List ExecTask).length = 1 ∧ (3 : Nat) ≠ 1 := by
  refine ⟨rfl, rfl, by decide⟩

/-- C1 (amended): executing a plan never reorders and never aborts on a
failed financial analysis: the `research_results` list is exactly the
concatenation, in task-list order, of each task's own contribution, where
a web_search task contributes one entry PER SEARCH RESULT (three with the
in-repo provider), a stock_analysis task contributes exactly one entry —
an error payload when the sector analysis failed, later tasks still
executing — a rag_query task contributes exactly one entry, and a task of
any other kind contributes none. -/
theorem C1_executor_entries (fetch : String → Except String StockData)
    (vector : Option (List KnowledgeEntry)) (tasks : List ExecTask) :
    conduct_research_tasks fetch vector tasks =
      .ok (tasks.flatMap (taskItems fetch vector), tasks.flatMap taskSources) ∧
    (∀ s, taskItems fetch vector (ExecTask.stock s) =
      [RItem.stockItem (analyze_sector_stocks fetch s)]) ∧
    (∀ t, (taskItems fetch vector t).length =
      match t with
      | .web q => (duckduckgo_search q 5).length
      | .other => 0
      | _ => 1) := by
  refine ⟨conduct_research_tasks_eq fetch vector tasks, fun s => rfl, ?_⟩
  intro t
  cases t <;> simp [taskItems]

/-! ## Claim C9 -/

/-- C9: the run's `sources` are exactly the URLs of the web-search result
entries collected in `research_results` (so `list(set(sources))` — here
`dedup` — is exactly the deduplicated URL set), while the rendered
numbered sources list has one line per search result, in order, with no
deduplication. -/
theorem C9_sources_set_and_numbered_list
    (fetch : String → Except String StockData)
    (vector : Option (List KnowledgeEntry)) (tasks : List ExecTask)
    (out : List RItem × List String)
    (h : conduct_research_tasks fetch vector tasks = .ok out) :
    (∀ u, u ∈ out.2 ↔ ∃ r : WebResult, RItem.webItem r ∈ out.1 ∧ r.url = u) ∧
    out.2.dedup.Nodup ∧ (∀ u, u ∈ out.2.dedup ↔ u ∈ out.2) ∧
    (∀ results : List MainSearchResult,
      sources_section results =
        concatAll ((List.enumFrom 1 results).map (fun p => source_line p.1 p.2)) ∧
      ((List.enumFrom 1 results).map (fun p => source_line p.1 p.2)).length =
        results.length) := by
  have heq := conduct_research_tasks_eq fetch vector tasks
  have hout : out = (tasks.flatMap (taskItems fetch vector),
      tasks.flatMap taskSources) := by
    have := heq.symm.trans h
    injection this with h2
    exact h2.symm
  subst hout
  refine ⟨?_, List.nodup_dedup _, fun u => List.mem_dedup, ?_⟩
  · intro u
    constructor
    · intro hu
      rcases List.mem_flatMap.mp hu with ⟨t, ht, hut⟩
      cases t with
      | web q =>
          simp only [taskSources] at hut
          rcases List.mem_map.mp hut with ⟨r, hr, hru⟩
          refine ⟨r, List.mem_flatMap.mpr ⟨ExecTask.web q, ht, ?_⟩, hru⟩
          simpa [taskItems] using List.mem_map_of_mem RItem.webItem hr
      | stock s => simp [taskSources] at hut
      | rag q => simp [taskSources] at hut
      | other => simp [taskSources] at hut
    · rintro ⟨r, hrmem, hru⟩
      rcases List.mem_flatMap.mp hrmem with ⟨t, ht, hit⟩
      cases t with
      | web q =>
          simp only [taskItems] at hit
          rcases List.mem_map.mp hit with ⟨r2, hr2, hr2eq⟩
          injection hr2eq with h3
          subst h3
          refine List.mem_flatMap.mpr ⟨ExecTask.web q, ht, ?_⟩
          simp only [taskSources]
          exact List.mem_map.mpr ⟨r2, hr2, hru⟩
      | stock s => simp [taskItems] at hit
      | rag q => simp [taskItems] at hit
      | other => simp [taskItems] at hit
  · intro results
    exact ⟨sources_section_eq results, by simp⟩

/-- The concrete run used to witness C9. -/
def c9RunOut : List RItem × List String :=
  ((duckduckgo_search "ai" 5).map RItem.webItem,
   (duckduckgo_search "ai" 5).map (fun r => r.url))

theorem C9_sources_set_and_numbered_list_witness :
    conduct_research_tasks fetchDown none [ExecTask.web "ai"] = .ok c9RunOut ∧
    ((∀ u, u ∈ c9RunOut.2 ↔
        ∃ r : WebResult, RItem.webItem r ∈ c9RunOut.1 ∧ r.url = u) ∧
      c9RunOut.2.dedup.Nodup ∧
      (∀ u, u ∈ c9RunOut.2.dedup ↔ u ∈ c9RunOut.2) ∧
      (∀ results : List MainSearchResult,
        sources_section results =
          concatAll ((List.enumFrom 1 results).map (fun p => source_line p.1 p.2)) ∧
        ((List.enumFrom 1 results).map (fun p => source_line p.1 p.2)).length =
          results.length)) :=
  ⟨by rfl,
   C9_sources_set_and_numbered_list fetchDown none [ExecTask.web "ai"] c9RunOut
     (by rfl)⟩

/-! ## Claim C2 -/

/-- C2 counterexample: the claim says `createPlan` NEVER propagates an
error, with model output that fails to parse into the Plan shape replaced
by rule-based planning.  But only a `json.loads` exception triggers the
fallback: model output that IS valid JSON but lacks the Plan shape (here
the JSON number `5`) flows into `_enhance_research_plan`, whose first
subscript assignment raises, and the exception propagates to the caller. -/
theorem C2_counterexample_parsable_non_plan_output :
    create_research_plan (some (JValue.jnum 5)) "AI trends" =
      .error "TypeError: item assignment" ∧
    (create_research_plan (some (JValue.jnum 5)) "AI trends").isOk = false := by
  exact ⟨rfl, rfl⟩

/-- C2 (amended): the fallback replaces the model output exactly when
`json.loads` raises, and that rule-based path indeed never errors; when
the model output parses, it is enhanced as is — and plan-shape errors in
the enhancement propagate to the caller. -/
theorem C2_fallback_on_parse_failure_only (q : String) (j : JValue) :
    (∃ p, create_research_plan none q = .ok p) ∧
    create_research_plan (some j) q = enhance_research_plan j q := by
  constructor
  · cases h : detect_sector q with
    | none => exact ⟨_, create_research_plan_fallback_none q h⟩
    | some s => exact ⟨_, create_research_plan_fallback_some q s h⟩
  · rfl

/-! ## Claim C4 -/

/-- C4 counterexample: the claim ties sector detection to a TOKEN-set
intersection and says a query matching no sector keyword as a token gets
no `sector_focus` and no financial task.  The code tests SUBSTRING
containment: no token of "fitness" equals any sector keyword, yet the
lowered keyword "it" occurs inside "fitness", so the rule-based plan sets
`sector_focus` to "technology" and adds a stock_analysis task. -/
theorem C4_counterexample_substring_query_fitness :
    (sector_keywords.all (fun p => !(specTokenIntersect "fitness" p.2))) = true ∧
    detect_sector "fitness" = some "technology" ∧
    create_research_plan none "fitness" =
      .ok (fallbackPlanEnhancedSome "fitness" "technology") ∧
    countTasksOfType (fallbackPlanEnhancedSome "fitness" "technology")
        "stock_analysis" = 1 ∧
    sectorFocusOf (fallbackPlanEnhancedSome "fitness" "technology") =
      some (JValue.jstr "technology") := by
  refine ⟨by decide, by decide, ?_, rfl, rfl⟩
  exact create_research_plan_fallback_some "fitness" "technology" (by decide)

/-- C4 (amended): sector detection uses case-insensitive SUBSTRING
matching of the keywords against the query.  The detected sector is the
first sector of the table (in insertion order) one of whose keywords
occurs inside the lowered query; exactly one stock_analysis task and the
matching `sector_focus` are added in that case, and none plus a null
`sector_focus` when no keyword occurs. -/
theorem C4_sector_detection_substring_first_match (q : String) :
    (detect_sector q = none ↔
      ∀ p ∈ sector_keywords, sectorMatches q p.2 = false) ∧
    (∀ s, detect_sector q = some s →
      ∃ l1 kws l2, sector_keywords = l1 ++ (s, kws) :: l2 ∧
        sectorMatches q kws = true ∧ ∀ p ∈ l1, sectorMatches q p.2 = false) ∧
    (∀ p, create_research_plan none q = .ok p →
      countTasksOfType p "stock_analysis" =
        (if (detect_sector q).isSome then 1 else 0) ∧
      sectorFocusOf p =
        some (match detect_sector q with
              | some s => JValue.jstr s
              | none => JValue.jnull)) := by
  refine ⟨?_, ?_, ?_⟩
  · constructor
    · intro hn
      have hf : sector_keywords.find? (fun p => sectorMatches q p.2) = none := by
        unfold detect_sector at hn
        cases hf : sector_keywords.find? (fun p => sectorMatches q p.2) with
        | none => rfl
        | some pr => rw [hf] at hn; simp at hn
      intro p hp
      have := List.find?_eq_none.mp hf p hp
      simpa using this
    · intro hall
      have hf : sector_keywords.find? (fun p => sectorMatches q p.2) = none :=
        List.find?_eq_none.mpr (by intro x hx; simp [hall x hx])
      unfold detect_sector
      rw [hf]
  · intro s hs
    unfold detect_sector at hs
    cases hf : sector_keywords.find? (fun p => sectorMatches q p.2) with
    | none => rw [hf] at hs; simp at hs
    | some pr =>
        rw [hf] at hs
        simp only [Option.some.injEq] at hs
        obtain ⟨l1, l2, heq, hp, hall⟩ := find?_split _ sector_keywords pr hf
        refine ⟨l1, pr.2, l2, ?_, hp, hall⟩
        rw [← hs]
        simpa using heq
  · intro p hp
    cases h : detect_sector q with
    | none =>
        rw [create_research_plan_fallback_none q h] at hp
        injection hp with h2
        subst h2
        exact ⟨rfl, rfl⟩
    | some s =>
        rw [create_research_plan_fallback_some q s h] at hp
        injection hp with h2
        subst h2
        exact ⟨rfl, rfl⟩

/-- A concrete no-sector query used to witness C4's conditional part. -/
theorem C4_sector_detection_substring_first_match_witness :
    detect_sector "zzz" = none ∧
    (countTasksOfType (fallbackPlanEnhancedNone "zzz") "stock_analysis" =
        (if (detect_sector "zzz").isSome then 1 else 0) ∧
      sectorFocusOf (fallbackPlanEnhancedNone "zzz") =
        some (match detect_sector "zzz" with
              | some s => JValue.jstr s
              | none => JValue.jnull)) :=
  ⟨by decide,
   (C4_sector_detection_substring_first_match "zzz").2.2
     (fallbackPlanEnhancedNone "zzz")
     (create_research_plan_fallback_none "zzz" (by decide))⟩

/-! ## Claim C5 -/

/-- The enhanced plan produced for the parsed model output
`{"tasks": []}`. -/
def c5EmptyTasksPlan : JValue :=
  .jobj [("tasks", .jarr []), ("original_query", .jstr "ai"),
         ("plan_created_at", .jstr "2024-09-07"),
         ("estimated_duration", .jnum 0)]

/-- C5 counterexample: the claim promises a web_search and a
knowledge-query task in EVERY returned Plan, regardless of the planning
path.  When the model output parses (here `{"tasks": []}`), the parsed
plan is used as is: `createPlan` succeeds with a Plan containing zero
tasks of any kind. -/
theorem C5_counterexample_model_plan_no_minimum :
    create_research_plan (some (JValue.jobj [("tasks", JValue.jarr [])])) "ai" =
      .ok c5EmptyTasksPlan ∧
    (planTasks c5EmptyTasksPlan).length = 0 ∧
    countTasksOfType c5EmptyTasksPlan "web_search" = 0 ∧
    countTasksOfType c5EmptyTasksPlan "rag_query" = 0 := by
  exact ⟨rfl, rfl, rfl, rfl⟩

/-- C5 (amended): every plan produced by the RULE-BASED path contains at
least two tasks, the first a web_search task and the second a rag_query
(knowledge) task, each carrying the original query text; a plan passed
through from parsed model output carries whatever tasks the JSON listed,
with no minimum. -/
theorem C5_fallback_plan_minimum_tasks (q : String) :
    ∃ p, create_research_plan none q = .ok p ∧
      2 ≤ (planTasks p).length ∧
      (∃ t ∈ planTasks p, taskHasType "web_search" t = true ∧
        taskQuery t = some (.jstr q)) ∧
      (∃ t ∈ planTasks p, taskHasType "rag_query" t = true ∧
        taskQuery t = some (.jstr q)) := by
  cases h : detect_sector q with
  | none =>
      refine ⟨fallbackPlanEnhancedNone q,
        create_research_plan_fallback_none q h, ?_, ?_, ?_⟩
      · have hp : planTasks (fallbackPlanEnhancedNone q) =
            [webTaskEnhanced q 2, ragTaskEnhanced q 1] := rfl
        rw [hp]
        simp
      · exact ⟨webTaskEnhanced q 2, by
          have hp : planTasks (fallbackPlanEnhancedNone q) =
              [webTaskEnhanced q 2, ragTaskEnhanced q 1] := rfl
          rw [hp]; simp, rfl, rfl⟩
      · exact ⟨ragTaskEnhanced q 1, by
          have hp : planTasks (fallbackPlanEnhancedNone q) =
              [webTaskEnhanced q 2, ragTaskEnhanced q 1] := rfl
          rw [hp]; simp, rfl, rfl⟩
  | some s =>
      refine ⟨fallbackPlanEnhancedSome q s,
        create_research_plan_fallback_some q s h, ?_, ?_, ?_⟩
      · have hp : planTasks (fallbackPlanEnhancedSome q s) =
            [webTaskEnhanced q 3, ragTaskEnhanced q 2, stockTaskEnhanced s] := rfl
        rw [hp]
        simp
      · exact ⟨webTaskEnhanced q 3, by
          have hp : planTasks (fallbackPlanEnhancedSome q s) =
              [webTaskEnhanced q 3, ragTaskEnhanced q 2, stockTaskEnhanced s] := rfl
          rw [hp]; simp, rfl, rfl⟩
      · exact ⟨ragTaskEnhanced q 2, by
          have hp : planTasks (fallbackPlanEnhancedSome q s) =
              [webTaskEnhanced q 3, ragTaskEnhanced q 2, stockTaskEnhanced s] := rfl
          rw [hp]; simp, rfl, rfl⟩

/-! ## Claim C3 -/

/-- C3 counterexample: identical `(query, plan, results)` inputs do NOT
yield byte-identical markdown across invocations, because the template
interpolates `datetime.now()` into the closing line; two invocations one
clock-second apart differ.  (The sentiment/growth figures also come from
`hash(query)`, which CPython salts per process, so they repeat only
within one process; that impure read is the `queryHash` argument here.) -/
theorem C3_counterexample_timestamp_changes_bytes :
    generate_research_content "q" [] [] none 0 "2024-09-07 10:00:00" ≠
      generate_research_content "q" [] [] none 0 "2024-09-07 10:00:01" := by
  decide

/-- C3 (amended): the renderer is a pure function of its inputs plus the
two impure reads (query hash and clock): with the clock reading factored
out, everything before the interpolated timestamp is byte-identical for
identical inputs — the output is exactly a fixed body (in which the
sentiment flag and growth figure are derived from `queryHash` alone)
followed by the timestamp and `*\n`.  Byte-identical output therefore
holds exactly when the two invocations see the same clock string and the
same process hash. -/
theorem C3_render_pure_up_to_timestamp (query : String)
    (searchResults : List MainSearchResult)
    (stockData : List (String × MainStockEntry))
    (contextTrends : Option (List String)) (queryHash : Int) (now : String) :
    generate_research_content query searchResults stockData contextTrends
        queryHash now =
      generate_content_body query searchResults stockData contextTrends
          queryHash ++ (now ++ "*\n") := by
  unfold generate_research_content generate_content_body
  simp only [String.append_assoc]

/-! ## Claim C6 -/

/-- Whether a provider tier produced a non-empty successful result (the
`if results: return results` test of `search_async`). -/
def tierNonEmptyOk (r : Except String (List WebResult)) : Bool :=
  match r with
  | .ok (_ :: _) => true
  | _ => false

/-- C6 counterexample: the claim says the chain surfaces an error ONLY IF
every tier, including the deterministic fallback, throws.  Here the
primary tier returns successfully (an empty result set) and does not
throw, yet the chain still surfaces the fallback's error. -/
theorem C6_counterexample_error_without_all_tiers_throwing :
    search_async (.ok ([] : List WebResult)) (.error "duckduckgo down")
        (.error "fallback down") = .error "fallback down" ∧
    (Except.ok ([] : List WebResult) : Except String (List WebResult)).isOk =
      true := by
  exact ⟨rfl, rfl⟩

/-- C6 (amended): the chain tries Tavily, then DuckDuckGo on failure OR
empty result, then returns the fallback tier's outcome as is.  It fails
exactly when the fallback tier throws after both earlier tiers failed or
came back empty (so a non-throwing but empty earlier tier still lets a
fallback error surface); whenever the fallback returns, the chain never
surfaces an error.  As wired in this repository the chain always succeeds
with the DuckDuckGo mock results. -/
theorem C6_search_chain (tavily ddg fb : Except String (List WebResult)) :
    ((search_async tavily ddg fb).isOk = false ↔
      tierNonEmptyOk tavily = false ∧ tierNonEmptyOk ddg = false ∧
        fb.isOk = false) ∧
    (fb.isOk = true → (search_async tavily ddg fb).isOk = true) ∧
    (∀ q n, searchAsyncRun q n =
      if (duckduckgo_search q n).isEmpty then .ok (fallback_search q n)
      else .ok (duckduckgo_search q n)) ∧
    (∀ q, searchAsyncRun q 5 = .ok (duckduckgo_search q 5)) := by
  refine ⟨?_, ?_, ?_, fun q => search_async_run_eq q⟩
  · cases tavily with
    | error et =>
        cases ddg with
        | error ed => cases fb <;> simp [search_async, tryTier, tierNonEmptyOk, Except.isOk, Except.toBool]
        | ok ld =>
            cases ld with
            | nil => cases fb <;> simp [search_async, tryTier, tierNonEmptyOk, Except.isOk, Except.toBool]
            | cons a l => simp [search_async, tryTier, tierNonEmptyOk, Except.isOk, Except.toBool]
    | ok lt =>
        cases lt with
        | nil =>
            cases ddg with
            | error ed => cases fb <;> simp [search_async, tryTier, tierNonEmptyOk, Except.isOk, Except.toBool]
            | ok ld =>
                cases ld with
                | nil => cases fb <;> simp [search_async, tryTier, tierNonEmptyOk, Except.isOk, Except.toBool]
                | cons a l => simp [search_async, tryTier, tierNonEmptyOk, Except.isOk, Except.toBool]
        | cons a l => simp [search_async, tryTier, tierNonEmptyOk, Except.isOk, Except.toBool]
  · intro hfb
    cases tavily with
    | error et =>
        cases ddg with
        | error ed => simpa [search_async, tryTier, Except.isOk, Except.toBool] using hfb
        | ok ld =>
            cases ld with
            | nil => simpa [search_async, tryTier, Except.isOk, Except.toBool] using hfb
            | cons a l => simp [search_async, tryTier, Except.isOk, Except.toBool]
    | ok lt =>
        cases lt with
        | nil =>
            cases ddg with
            | error ed => simpa [search_async, tryTier, Except.isOk, Except.toBool] using hfb
            | ok ld =>
                cases ld with
                | nil => simpa [search_async, tryTier, Except.isOk, Except.toBool] using hfb
                | cons a l => simp [search_async, tryTier, Except.isOk, Except.toBool]
        | cons a l => simp [search_async, tryTier, Except.isOk, Except.toBool]
  · intro q n
    unfold searchAsyncRun search_async
    cases hd : duckduckgo_search q n with
    | nil => simp [tryTier, tavily_search, hd]
    | cons a l => simp [tryTier, tavily_search, hd]

theorem C6_search_chain_witness :
    ((Except.ok ([] : List WebResult) : Except String (List WebResult)).isOk =
      true) ∧
    (search_async (.error "tavily down") (.ok [])
        (.ok ([] : List WebResult))).isOk = true :=
  ⟨rfl, (C6_search_chain (.error "tavily down") (.ok []) (.ok [])).2.1 rfl⟩

/-! ## Claim C7 -/

/-- A symbol whose fetch succeeds with a positive P/E ratio. -/
def c7StockA : StockData :=
  { ticker := "AAPL", name := "Apple", price := 5, marketCap := 100,
    peRatio := 10, high52w := 6, low52w := 4, volume := 1000,
    sector := "Technology", industry := "Hardware" }

/-- A symbol whose fetch succeeds but whose P/E ratio is missing
(`info.get('trailingPE', 0)` returned the 0 default). -/
def c7StockB : StockData :=
  { ticker := "MSFT", name := "Microsoft", price := 7, marketCap := 200,
    peRatio := 0, high52w := 8, low52w := 6, volume := 2000,
    sector := "Technology", industry := "Software" }

/-- A financial-data capability succeeding exactly for AAPL and MSFT. -/
def c7Fetch : String → Except String StockData := fun t =>
  if t == "AAPL" then .ok c7StockA
  else if t == "MSFT" then .ok c7StockB
  else .error ("Error fetching data for " ++ t)

/-- C7 counterexample: the claim says the reported average P/E is the mean
over exactly the symbols with positive ratio.  With two fetched symbols,
P/E 10 and P/E 0, the code computes `10 / 2 = 5` — the numerator skips the
zero ratio but the denominator counts ALL fetched symbols — while the
claimed mean over the positive-ratio symbols is `10 / 1 = 10`. -/
theorem C7_counterexample_avg_pe_denominator :
    (analyze_sector_stocks c7Fetch "technology").map (fun a => a.avgPeRatio) =
      .ok 5 ∧
    specAvgPe [c7StockA, c7StockB] = 10 ∧ (5 : Rat) ≠ 10 := by
  refine ⟨?_, ?_, by norm_num⟩
  · have h1 : (analyze_sector_stocks c7Fetch "technology").map
        (fun a => a.avgPeRatio) =
        .ok ((([c7StockA, c7StockB].filter (fun s => s.peRatio != 0)).map
          (fun s => s.peRatio)).sum / (([c7StockA, c7StockB].length : Nat) : Rat)) :=
      rfl
    rw [h1]
    norm_num [c7StockA, c7StockB]
  · norm_num [specAvgPe, c7StockA, c7StockB]

/-- C7 (amended): for a successful sector analysis, the average P/E equals
the sum of the NONZERO (including negative) ratios of the fetched symbols
divided by the count of ALL fetched symbols; the total market cap is the
sum of the nonzero market caps; and the best/worst performers are fetched
symbols attaining the maximal/minimal latest price. -/
theorem C7_sector_aggregates (fetch : String → Except String StockData)
    (sector : String) (a : SectorAnalysis)
    (h : analyze_sector_stocks fetch sector = .ok a) :
    a.avgPeRatio = ((a.stocks.filter (fun s => s.peRatio != 0)).map
        (fun s => s.peRatio)).sum / (a.stocks.length : Rat) ∧
    a.totalMarketCap = ((a.stocks.filter (fun s => s.marketCap != 0)).map
        (fun s => s.marketCap)).sum ∧
    (∀ s ∈ a.stocks, s.price ≤ a.bestPerformer.price ∧
      a.worstPerformer.price ≤ s.price) ∧
    (∃ s ∈ a.stocks, s.ticker = a.bestPerformer.ticker ∧
      s.price = a.bestPerformer.price) ∧
    (∃ s ∈ a.stocks, s.ticker = a.worstPerformer.ticker ∧
      s.price = a.worstPerformer.price) := by
  cases hl : lookupSectorStocks sector with
  | none => simp [analyze_sector_stocks, hl] at h
  | some tickers =>
      cases hc : collectSectorData fetch tickers with
      | nil => simp [analyze_sector_stocks, hl, hc] at h
      | cons d ds =>
          simp only [analyze_sector_stocks, hl, hc, Except.ok.injEq] at h
          subst h
          refine ⟨rfl, rfl, ?_, ?_, ?_⟩
          · intro s hs
            exact ⟨le_pyMaxBy (fun x => x.price) d ds s hs,
              pyMinBy_le (fun x => x.price) d ds s hs⟩
          · exact ⟨pyMaxBy (fun x => x.price) d ds, pyMaxBy_mem _ d ds, rfl, rfl⟩
          · exact ⟨pyMinBy (fun x => x.price) d ds, pyMinBy_mem _ d ds, rfl, rfl⟩

/-- The analysis record `analyze_sector_stocks` produces for `c7Fetch` on
the technology sector, in the unevaluated shape the source computes. -/
def c7Analysis : SectorAnalysis :=
  { sector := "technology", totalStocksAnalyzed := 2,
    totalMarketCap := (([c7StockA, c7StockB].filter
      (fun s => s.marketCap != 0)).map (fun s => s.marketCap)).sum,
    avgPeRatio := (([c7StockA, c7StockB].filter
      (fun s => s.peRatio != 0)).map (fun s => s.peRatio)).sum /
      (([c7StockA, c7StockB].length : Nat) : Rat),
    bestPerformer :=
      { ticker := (pyMaxBy (fun x => x.price) c7StockA [c7StockB]).ticker,
        name := (pyMaxBy (fun x => x.price) c7StockA [c7StockB]).name,
        price := (pyMaxBy (fun x => x.price) c7StockA [c7StockB]).price },
    worstPerformer :=
      { ticker := (pyMinBy (fun x => x.price) c7StockA [c7StockB]).ticker,
        name := (pyMinBy (fun x => x.price) c7StockA [c7StockB]).name,
        price := (pyMinBy (fun x => x.price) c7StockA [c7StockB]).price },
    stocks := [c7StockA, c7StockB] }

theorem C7_sector_aggregates_witness :
    analyze_sector_stocks c7Fetch "technology" = .ok c7Analysis ∧
    (c7Analysis.avgPeRatio = ((c7Analysis.stocks.filter
        (fun s => s.peRatio != 0)).map (fun s => s.peRatio)).sum /
        (c7Analysis.stocks.length : Rat) ∧
      c7Analysis.totalMarketCap = ((c7Analysis.stocks.filter
        (fun s => s.marketCap != 0)).map (fun s => s.marketCap)).sum ∧
      (∀ s ∈ c7Analysis.stocks, s.price ≤ c7Analysis.bestPerformer.price ∧
        c7Analysis.worstPerformer.price ≤ s.price) ∧
      (∃ s ∈ c7Analysis.stocks, s.ticker = c7Analysis.bestPerformer.ticker ∧
        s.price = c7Analysis.bestPerformer.price) ∧
      (∃ s ∈ c7Analysis.stocks, s.ticker = c7Analysis.worstPerformer.ticker ∧
        s.price = c7Analysis.worstPerformer.price)) :=
  ⟨rfl, C7_sector_aggregates c7Fetch "technology" c7Analysis rfl⟩

/-! ## Claim C8 -/

/-- The report template with the stock subsection contributing nothing:
this definition contains no `### Financial Performance` text at all. -/
def generate_research_content_no_stock (query : String)
    (searchResults : List MainSearchResult)
    (contextTrends : Option (List String)) (queryHash : Int) (now : String) :
    String :=
  reportIntro query queryHash ++
  "\n## Industry Trends\nBased on our research, key trends include:\n" ++
  trends_section contextTrends ++
  "\n## Sources and References\n" ++
  sources_section searchResults ++
  "\n## Conclusion\n" ++ query ++
  " represents a dynamic sector with significant opportunities and challenges. \nContinued monitoring of market trends and regulatory developments is recommended.\n\n*Report generated on " ++
  now ++ "*\n"

/-- C8: a symbol-level fetch failure only drops that symbol from the
collected data; all symbols failing makes the task's result the
`No data available for ... sector` error while at least one success keeps
the task successful; and a report rendered with no stock data omits the
per-symbol financial subsection entirely (the rendered text equals a
template with no trace of it), whereas any nonempty stock data renders a
nonempty subsection. -/
theorem C8_symbol_failures_and_report_omission
    (fetch : String → Except String StockData) (sector : String)
    (tickers : List String) (h : lookupSectorStocks sector = some tickers) :
    collectSectorData fetch tickers =
      tickers.filterMap (fun t => (fetch t).toOption) ∧
    ((∀ t ∈ tickers, (fetch t).isOk = false) →
      analyze_sector_stocks fetch sector =
        .error ("No data available for " ++ sector ++ " sector")) ∧
    ((∃ t ∈ tickers, (fetch t).isOk = true) →
      (analyze_sector_stocks fetch sector).isOk = true) ∧
    (∀ (q : String) (sr : List MainSearchResult)
        (ct : Option (List String)) (hq : Int) (now : String),
      generate_research_content q sr [] ct hq now =
        generate_research_content_no_stock q sr ct hq now) ∧
    (∀ (p : String × MainStockEntry) (ps : List (String × MainStockEntry)),
      stock_section (p :: ps) ≠ "") := by
  refine ⟨collectSectorData_eq fetch tickers, ?_, ?_, ?_, ?_⟩
  · intro hall
    have hc : collectSectorData fetch tickers = [] := by
      rw [collectSectorData_eq]
      refine List.filterMap_eq_nil_iff.mpr ?_
      intro t ht
      cases hf : fetch t with
      | ok d => have := hall t ht; rw [hf] at this; simp [Except.isOk, Except.toBool] at this
      | error e => simp [Except.toOption]
    simp [analyze_sector_stocks, h, hc]
  · rintro ⟨t, ht, hok⟩
    obtain ⟨d, hd⟩ : ∃ d, fetch t = .ok d := by
      cases hf : fetch t with
      | ok d => exact ⟨d, rfl⟩
      | error e => rw [hf] at hok; simp [Except.isOk, Except.toBool] at hok
    have hmem : d ∈ collectSectorData fetch tickers := by
      rw [collectSectorData_eq]
      exact List.mem_filterMap.mpr ⟨t, ht, by simp [hd, Except.toOption]⟩
    cases hc : collectSectorData fetch tickers with
    | nil => rw [hc] at hmem; simp at hmem
    | cons x xs =>
        simp [analyze_sector_stocks, h, hc, Except.isOk, Except.toBool]
  · intro q sr ct hq now
    simp [generate_research_content, generate_research_content_no_stock,
      stock_section]
  · intro p ps heq
    have h2 := foldl_append_concatAll
      (fun pr : String × MainStockEntry => stockBlock pr.1 pr.2) (p :: ps)
      "\n### Financial Performance\n"
    have h3 : stock_section (p :: ps) =
        "\n### Financial Performance\n" ++
          concatAll ((p :: ps).map (fun pr => stockBlock pr.1 pr.2)) := by
      simpa [stock_section] using h2
    rw [h3] at heq
    have h4 := congrArg String.length heq
    rw [String.length_append] at h4
    have h5 : ("\n### Financial Performance\n" : String).length = 27 := by
      decide
    have h6 : ("" : String).length = 0 := rfl
    rw [h5, h6] at h4
    omega

theorem C8_symbol_failures_and_report_omission_witness :
    lookupSectorStocks "energy" = some ["XOM", "CVX", "COP", "SLB", "EOG"] ∧
    (collectSectorData fetchDown ["XOM", "CVX", "COP", "SLB", "EOG"] =
      ["XOM", "CVX", "COP", "SLB", "EOG"].filterMap
        (fun t => (fetchDown t).toOption) ∧
    ((∀ t ∈ ["XOM", "CVX", "COP", "SLB", "EOG"], (fetchDown t).isOk = false) →
      analyze_sector_stocks fetchDown "energy" =
        .error ("No data available for " ++ "energy" ++ " sector")) ∧
    ((∃ t ∈ ["XOM", "CVX", "COP", "SLB", "EOG"], (fetchDown t).isOk = true) →
      (analyze_sector_stocks fetchDown "energy").isOk = true) ∧
    (∀ (q : String) (sr : List MainSearchResult)
        (ct : Option (List String)) (hq : Int) (now : String),
      generate_research_content q sr [] ct hq now =
        generate_research_content_no_stock q sr ct hq now) ∧
    (∀ (p : String × MainStockEntry) (ps : List (String × MainStockEntry)),
      stock_section (p :: ps) ≠ "")) :=
  ⟨rfl, C8_symbol_failures_and_report_omission fetchDown "energy"
    ["XOM", "CVX", "COP", "SLB", "EOG"] rfl⟩

/-! ## Claim C10 -/

/-- A ticker whose three-month history is a flat line: the 52-week high
equals the 52-week low. -/
def c10FlatStock : StockData :=
  { ticker := "FLAT", name := "Flatline Corp", price := 100,
    marketCap := 200000000000, peRatio := 10, high52w := 100, low52w := 100,
    volume := 1, sector := "Technology", industry := "Hardware" }

/-- A fetch succeeding for the flat ticker. -/
def c10Fetch : String → Except String StockData := fun t =>
  if t == "FLAT" then .ok c10FlatStock
  else .error ("No data found for ticker " ++ t)

/-- C10: the detailed analysis is NOT total on successfully fetched data:
when the 52-week high equals the 52-week low the price-position step
divides by a zero price range, and the resulting exception escapes
`get_detailed_analysis` instead of a scored result being returned. -/
theorem C10_flat_price_range_divides_by_zero :
    get_detailed_analysis c10Fetch "FLAT" =
      .error "ZeroDivisionError: float division by zero" ∧
    c10FlatStock.high52w = c10FlatStock.low52w ∧
    (c10Fetch "FLAT").isOk = true := by
  refine ⟨?_, rfl, rfl⟩
  norm_num [get_detailed_analysis, c10Fetch, c10FlatStock]
